import Mathlib

/-!
Verification of the request-construction and release-track variation logic of
`surface/compute/instances/attach_disk.py`: the rules by which CLI flags, the
release track (GA/BETA/ALPHA) and optional CSEK key material are combined into
one `ComputeInstancesAttachDiskRequest`.

The external collaborators (resource-name resolver, CSEK key store) are not
part of the source file; they are modelled from the spec and kept abstract
where possible (the resolver is a parameter of `Run`).
-/

namespace AttachDiskCmd

/-- `base.ReleaseTrack`: the three release tracks that register a command
class (`AttachDisk` → GA, `AttachDiskBeta` → BETA, `AttachDiskAlpha` → ALPHA). -/
inductive ReleaseTrack where
  | GA
  | BETA
  | ALPHA
deriving DecidableEq, Repr

/-- `compute_scopes.ScopeEnum`: the scope passed to the disk resolver. -/
inductive ScopeEnum where
  | ZONE
  | REGION
deriving DecidableEq, Repr

/-- `AttachedDisk.ModeValueValuesEnum` of the compute messages module. -/
inductive ModeValueValuesEnum where
  | READ_WRITE
  | READ_ONLY
deriving DecidableEq, Repr

/-- `AttachedDisk.TypeValueValuesEnum`: only `PERSISTENT` is used here. -/
inductive TypeValueValuesEnum where
  | PERSISTENT
deriving DecidableEq, Repr

/-- The error taxonomy of the spec (§4.3 / §7) for request construction:
missing required flag, bad enum literal, resolver failure, and the CSEK
key-type rejection. -/
inductive Error where
  | MissingRequiredOption
  | InvalidEnumValue
  | ResourceResolutionError
  | UnsupportedKeyType
deriving DecidableEq, Repr

/-- The kind of a customer-supplied encryption key entry. -/
inductive KeyType where
  | aes256
  | rsaEncrypted
deriving DecidableEq, Repr

/-- Modelled from the spec: one entry of the external CSEK key store
(`csek_utils`), pairing a fully-qualified resource URI with key material. -/
structure CsekKeyEntry where
  uri : String
  keyType : KeyType
  key : String
deriving DecidableEq, Repr

/-- The raw command line, before `_Args` validation: `disk` and `mode` may be
absent, the boolean flags record whether the flag was passed (argparse
`store_true` default is `False`), and the CSEK key file is the already-read
content of the `--csek-key-file` argument (the file format is owned by the
external key-store collaborator). -/
structure RawArgs where
  device_name : Option String
  disk : Option String
  mode : Option String
  disk_scope : Option String
  force_attach : Bool
  boot : Bool
  csek_key_file : Option (List CsekKeyEntry)
deriving DecidableEq, Repr

/-- The validated argparse namespace seen by `Run`: `disk` is present, `mode`
is one of the two recognized literals (default `"rw"`), and flags a track does
not register keep their argparse defaults. -/
structure Args where
  device_name : Option String
  disk : String
  mode : String
  disk_scope : Option String
  force_attach : Bool
  boot : Bool
  csek_key_file : Option (List CsekKeyEntry)
deriving DecidableEq, Repr

/-- `_Args(parser, support_disk_scope, support_force_attach, support_boot)`:
the shared flag collector. `--disk` is `required=True` (missing → argparse
error, modelled as `MissingRequiredOption`); `--mode` has
`choices={ro, rw}` and `default of rw` (a non-literal value → argparse error,
modelled as `InvalidEnumValue`); `--disk-scope`, `--force-attach` and
`--boot` are only registered when the corresponding support flag is set, so
an unregistered flag keeps its default (`none` / `False`). -/
def _Args (support_disk_scope support_force_attach support_boot : Bool)
    (raw : RawArgs) : Except Error Args :=
  match raw.disk with
  | none => .error .MissingRequiredOption
  | some d =>
    if raw.mode.getD "rw" = "ro" ∨ raw.mode.getD "rw" = "rw" then
      .ok { device_name := raw.device_name
            disk := d
            mode := raw.mode.getD "rw"
            disk_scope := if support_disk_scope then raw.disk_scope else none
            force_attach := if support_force_attach then raw.force_attach else false
            boot := if support_boot then raw.boot else false
            csek_key_file := raw.csek_key_file }
    else
      .error .InvalidEnumValue

/-- `AttachDisk.Args`: the GA class calls `_Args(parser)` with no support
flags. -/
def AttachDisk.ParseArgs : RawArgs → Except Error Args :=
  _Args false false false

/-- `AttachDiskBeta.Args`: `_Args(parser, support_disk_scope=True,
support_force_attach=True)`. -/
def AttachDiskBeta.ParseArgs : RawArgs → Except Error Args :=
  _Args true true false

/-- `AttachDiskAlpha.Args`: `_Args(parser, support_disk_scope=True,
support_force_attach=True, support_boot=True)`. -/
def AttachDiskAlpha.ParseArgs : RawArgs → Except Error Args :=
  _Args true true true

/-- Dispatch of the static `Args` method by the release track that registered
the class. -/
def ParseArgsFor : ReleaseTrack → RawArgs → Except Error Args
  | .GA => AttachDisk.ParseArgs
  | .BETA => AttachDiskBeta.ParseArgs
  | .ALPHA => AttachDiskAlpha.ParseArgs

/-- A fully-qualified disk reference as returned by the external resolver:
kept opaque, only its `SelfLink()` is consumed by `Run`. -/
structure DiskRef where
  selfLink : String
deriving DecidableEq, Repr

/-- `disk_ref.SelfLink()`. -/
def DiskRef.SelfLink (d : DiskRef) : String := d.selfLink

/-- The already-resolved instance reference (`flags.INSTANCE_ARG
.ResolveAsResource`), an external collaborator's result. -/
structure InstanceRef where
  name : String
  project : String
  zone : String
deriving DecidableEq, Repr

/-- `instance_ref.Name()`. -/
def InstanceRef.Name (i : InstanceRef) : String := i.name

/-- Modelled from the spec: the external disk-reference resolver
`instance_utils.ParseDiskResource` (§4.2), a pure function from
(diskName, projectId, zone, scopeSelector) to a fully-qualified disk
reference, failing with `ResourceResolutionError` (modelled as `none`).
It is kept abstract: `Run` takes it as a parameter. -/
abbrev Resolver : Type :=
  String → String → String → ScopeEnum → Option DiskRef

/-- `AttachDisk.ParseDiskRef` (GA): always resolves with
`compute_scopes.ScopeEnum.ZONE`. -/
def AttachDisk.ParseDiskRef (resolver : Resolver) (args : Args)
    (instance_ref : InstanceRef) : Option DiskRef :=
  resolver args.disk instance_ref.project instance_ref.zone ScopeEnum.ZONE

/-- `AttachDiskBeta.ParseDiskRef`: scope is `REGION` when
`args.disk_scope == 'regional'`, else `ZONE`. -/
def AttachDiskBeta.ParseDiskRef (resolver : Resolver) (args : Args)
    (instance_ref : InstanceRef) : Option DiskRef :=
  let scope := if args.disk_scope = some "regional" then ScopeEnum.REGION
               else ScopeEnum.ZONE
  resolver args.disk instance_ref.project instance_ref.zone scope

/-- `AttachDiskAlpha` defines no `ParseDiskRef` of its own: it inherits the
beta override. -/
def AttachDiskAlpha.ParseDiskRef : Resolver → Args → InstanceRef → Option DiskRef :=
  AttachDiskBeta.ParseDiskRef

/-- Virtual dispatch of `self.ParseDiskRef` by release track. -/
def ParseDiskRefFor : ReleaseTrack → Resolver → Args → InstanceRef → Option DiskRef
  | .GA => AttachDisk.ParseDiskRef
  | .BETA => AttachDiskBeta.ParseDiskRef
  | .ALPHA => AttachDiskAlpha.ParseDiskRef

/-- Modelled from the spec: `csek_utils.CsekKeyStore.FromArgs(args,
allow_rsa_encrypted)` (external key-store collaborator). Returns no store
when the caller supplied no key material; rejects a store holding an
RSA-wrapped key with `UnsupportedKeyType` unless `allow_rsa_encrypted`. -/
def CsekKeyStore.FromArgs (key_file : Option (List CsekKeyEntry))
    (allow_rsa_encrypted : Bool) : Except Error (Option (List CsekKeyEntry)) :=
  match key_file with
  | none => .ok none
  | some entries =>
    if allow_rsa_encrypted = false ∧
        entries.any (fun e => e.keyType == KeyType.rsaEncrypted) then
      .error .UnsupportedKeyType
    else
      .ok (some entries)

/-- Modelled from the spec: `csek_utils.MaybeLookupKeyMessage(csek_keys,
disk_ref, client)`: the key message for the entry whose URI matches the disk
reference, or `None` when there is no store or no matching entry. -/
def MaybeLookupKeyMessage (csek_keys : Option (List CsekKeyEntry))
    (self_link : String) : Option CsekKeyEntry :=
  match csek_keys with
  | none => none
  | some entries => entries.find? (fun e => e.uri == self_link)

/-- The `AttachedDisk` message assembled by `Run`. Optional proto fields that
`Run` may leave unset are `Option`s. -/
structure AttachedDisk where
  deviceName : Option String
  mode : ModeValueValuesEnum
  source : String
  diskType : TypeValueValuesEnum
  diskEncryptionKey : Option CsekKeyEntry
  boot : Option Bool
deriving DecidableEq, Repr

/-- The outbound `ComputeInstancesAttachDiskRequest` message. -/
structure ComputeInstancesAttachDiskRequest where
  instance_ : String
  project : String
  attachedDisk : AttachedDisk
  zone : String
  forceAttach : Option Bool
deriving DecidableEq, Repr

/-- The straight-line request assembly of `AttachDisk.Run` after the disk
reference and the CSEK store are available: mode mapping, `AttachedDisk`
construction, the ALPHA-only `boot` assignment and the BETA/ALPHA-only
`forceAttach` assignment. -/
def assemble (track : ReleaseTrack) (args : Args) (instance_ref : InstanceRef)
    (disk_ref : DiskRef) (csek_keys : Option (List CsekKeyEntry)) :
    ComputeInstancesAttachDiskRequest :=
  let mode := if args.mode = "rw" then ModeValueValuesEnum.READ_WRITE
              else ModeValueValuesEnum.READ_ONLY
  let disk_key_or_none := MaybeLookupKeyMessage csek_keys disk_ref.SelfLink
  let attached_disk : AttachedDisk :=
    { deviceName := args.device_name
      mode := mode
      source := disk_ref.SelfLink
      diskType := TypeValueValuesEnum.PERSISTENT
      diskEncryptionKey := disk_key_or_none
      boot := none }
  let attached_disk :=
    if track = ReleaseTrack.ALPHA ∧ args.boot then
      { attached_disk with boot := some args.boot }
    else attached_disk
  let request : ComputeInstancesAttachDiskRequest :=
    { instance_ := instance_ref.Name
      project := instance_ref.project
      attachedDisk := attached_disk
      zone := instance_ref.zone
      forceAttach := none }
  if track = ReleaseTrack.ALPHA ∨ track = ReleaseTrack.BETA then
    { request with forceAttach := some args.force_attach }
  else request

/-- `AttachDisk.Run(self, args)` (shared by all three classes, `self` only
contributing `self.ReleaseTrack()` and the `ParseDiskRef` override): resolve
the disk reference, build the CSEK store with RSA-wrapped keys allowed only
at ALPHA/BETA, then assemble the request. A resolver failure or key-store
failure is terminal: no request value is produced. -/
def Run (track : ReleaseTrack) (resolver : Resolver) (args : Args)
    (instance_ref : InstanceRef) :
    Except Error ComputeInstancesAttachDiskRequest :=
  match ParseDiskRefFor track resolver args instance_ref with
  | none => .error .ResourceResolutionError
  | some disk_ref =>
    match CsekKeyStore.FromArgs args.csek_key_file
        (decide (track = ReleaseTrack.ALPHA ∨ track = ReleaseTrack.BETA)) with
    | .error e => .error e
    | .ok csek_keys => .ok (assemble track args instance_ref disk_ref csek_keys)

/-- The whole invocation: argparse validation (per-track `Args` method)
followed by `Run`. -/
def RunCommand (track : ReleaseTrack) (resolver : Resolver) (raw : RawArgs)
    (instance_ref : InstanceRef) :
    Except Error ComputeInstancesAttachDiskRequest :=
  match ParseArgsFor track raw with
  | .error e => .error e
  | .ok args => Run track resolver args instance_ref

/-- The requests handed to `client.MakeRequests`: exactly one on success,
none when any error is raised first. -/
def requestsSent (track : ReleaseTrack) (resolver : Resolver) (raw : RawArgs)
    (instance_ref : InstanceRef) : List ComputeInstancesAttachDiskRequest :=
  match RunCommand track resolver raw instance_ref with
  | .ok r => [r]
  | .error _ => []

/-- A constant resolver used by concrete witnesses. -/
def resolverW : Resolver := fun _ _ _ _ => some ⟨"link"⟩

/-- A concrete already-resolved instance reference used by witnesses. -/
def irefW : InstanceRef := ⟨"i", "p", "z"⟩

/-- Concrete validated options used by witnesses: force-attach and boot both
requested, no key material. -/
def argsW : Args := ⟨none, "d1", "rw", none, true, true, none⟩

/-! ## Helper lemmas -/

theorem Run_ok_elim {track : ReleaseTrack} {resolver : Resolver} {args : Args}
    {instance_ref : InstanceRef} {r : ComputeInstancesAttachDiskRequest}
    (h : Run track resolver args instance_ref = .ok r) :
    ∃ disk_ref csek_keys,
      ParseDiskRefFor track resolver args instance_ref = some disk_ref ∧
      CsekKeyStore.FromArgs args.csek_key_file
        (decide (track = ReleaseTrack.ALPHA ∨ track = ReleaseTrack.BETA)) = .ok csek_keys ∧
      r = assemble track args instance_ref disk_ref csek_keys := by
  unfold Run at h
  split at h
  · cases h
  · rename_i disk_ref hd
    split at h
    · cases h
    · rename_i csek_keys hk
      injection h with h
      exact ⟨disk_ref, csek_keys, hd, hk, h.symm⟩

theorem _Args_ok_elim {s1 s2 s3 : Bool} {raw : RawArgs} {args : Args}
    (h : _Args s1 s2 s3 raw = .ok args) :
    raw.disk = some args.disk ∧
    args.mode = raw.mode.getD "rw" ∧
    (args.mode = "ro" ∨ args.mode = "rw") ∧
    args.force_attach = (if s2 then raw.force_attach else false) ∧
    args.csek_key_file = raw.csek_key_file := by
  unfold _Args at h
  split at h
  · cases h
  · rename_i d hd
    split at h
    · rename_i hm
      injection h with h
      subst h
      exact ⟨hd, rfl, hm, rfl, rfl⟩
    · cases h

theorem Run_ok_intro {track : ReleaseTrack} {resolver : Resolver} {args : Args}
    {instance_ref : InstanceRef} {disk_ref : DiskRef}
    {csek_keys : Option (List CsekKeyEntry)}
    (hd : ParseDiskRefFor track resolver args instance_ref = some disk_ref)
    (hk : CsekKeyStore.FromArgs args.csek_key_file
      (decide (track = ReleaseTrack.ALPHA ∨ track = ReleaseTrack.BETA)) = .ok csek_keys) :
    Run track resolver args instance_ref =
      .ok (assemble track args instance_ref disk_ref csek_keys) := by
  unfold Run
  simp only [hd, hk]

theorem Run_csek_error_intro {track : ReleaseTrack} {resolver : Resolver}
    {args : Args} {instance_ref : InstanceRef} {disk_ref : DiskRef} {e : Error}
    (hd : ParseDiskRefFor track resolver args instance_ref = some disk_ref)
    (hk : CsekKeyStore.FromArgs args.csek_key_file
      (decide (track = ReleaseTrack.ALPHA ∨ track = ReleaseTrack.BETA)) = .error e) :
    Run track resolver args instance_ref = .error e := by
  unfold Run
  simp only [hd, hk]

theorem FromArgs_rsa_rejected {entries : List CsekKeyEntry}
    (hrsa : entries.any (fun e => e.keyType == KeyType.rsaEncrypted) = true) :
    CsekKeyStore.FromArgs (some entries) false = .error Error.UnsupportedKeyType := by
  simp only [CsekKeyStore.FromArgs]
  rw [if_pos ⟨trivial, hrsa⟩]

theorem FromArgs_allow_ok (entries : List CsekKeyEntry) :
    CsekKeyStore.FromArgs (some entries) true = .ok (some entries) := by
  simp only [CsekKeyStore.FromArgs]
  rw [if_neg]
  simp

theorem FromArgs_ok_elim {key_file csek_keys : Option (List CsekKeyEntry)}
    {allow : Bool}
    (h : CsekKeyStore.FromArgs key_file allow = .ok csek_keys) :
    csek_keys = key_file := by
  unfold CsekKeyStore.FromArgs at h
  split at h
  · injection h with h
    exact h.symm
  · split at h
    · cases h
    · injection h with h
      exact h.symm

theorem ParseArgsFor_eq (track : ReleaseTrack) :
    ParseArgsFor track =
      _Args (decide (track ≠ ReleaseTrack.GA)) (decide (track ≠ ReleaseTrack.GA))
        (decide (track = ReleaseTrack.ALPHA)) := by
  cases track <;> rfl

theorem assemble_mode (track : ReleaseTrack) (args : Args)
    (instance_ref : InstanceRef) (disk_ref : DiskRef)
    (csek_keys : Option (List CsekKeyEntry)) :
    (assemble track args instance_ref disk_ref csek_keys).attachedDisk.mode =
      (if args.mode = "rw" then ModeValueValuesEnum.READ_WRITE
       else ModeValueValuesEnum.READ_ONLY) := by
  cases track <;> cases hb : args.boot <;> simp [assemble, hb]

theorem assemble_forceAttach (track : ReleaseTrack) (args : Args)
    (instance_ref : InstanceRef) (disk_ref : DiskRef)
    (csek_keys : Option (List CsekKeyEntry)) :
    (assemble track args instance_ref disk_ref csek_keys).forceAttach =
      (if track = ReleaseTrack.ALPHA ∨ track = ReleaseTrack.BETA then
        some args.force_attach
       else none) := by
  cases track <;> cases hb : args.boot <;> simp [assemble, hb]

theorem assemble_key (track : ReleaseTrack) (args : Args)
    (instance_ref : InstanceRef) (disk_ref : DiskRef)
    (csek_keys : Option (List CsekKeyEntry)) :
    (assemble track args instance_ref disk_ref csek_keys).attachedDisk.diskEncryptionKey =
      MaybeLookupKeyMessage csek_keys disk_ref.SelfLink := by
  cases track <;> cases hb : args.boot <;> simp [assemble, hb]

/-! ## Claims -/

/-- C1: for every track and every set of caller options, the emitted request
carries the `forceAttach` field iff the track is BETA or ALPHA; under GA the
field is omitted from the request regardless of caller input. -/
theorem C1_forceAttach_iff_beta_or_alpha
    (track : ReleaseTrack) (resolver : Resolver) (args : Args)
    (instance_ref : InstanceRef) (r : ComputeInstancesAttachDiskRequest)
    (h : Run track resolver args instance_ref = .ok r) :
    r.forceAttach ≠ none ↔ (track = ReleaseTrack.BETA ∨ track = ReleaseTrack.ALPHA) := by
  obtain ⟨d, k, -, -, hr⟩ := Run_ok_elim h
  subst hr
  cases track <;> simp [assemble]

/-- C1 witness: the theorem applied to a concrete GA run (which does emit a
request): its `forceAttach` is absent. -/
theorem C1_witness :
    (assemble ReleaseTrack.GA argsW irefW ⟨"link"⟩ none).forceAttach ≠ none ↔
      (ReleaseTrack.GA = ReleaseTrack.BETA ∨ ReleaseTrack.GA = ReleaseTrack.ALPHA) :=
  C1_forceAttach_iff_beta_or_alpha ReleaseTrack.GA resolverW argsW irefW _ rfl

/-- C2: the request's `boot` field is absent for every track other than
ALPHA; under ALPHA it is populated iff the caller requested it. -/
theorem C2_boot_only_alpha
    (track : ReleaseTrack) (resolver : Resolver) (args : Args)
    (instance_ref : InstanceRef) (r : ComputeInstancesAttachDiskRequest)
    (h : Run track resolver args instance_ref = .ok r) :
    (track ≠ ReleaseTrack.ALPHA → r.attachedDisk.boot = none) ∧
    (track = ReleaseTrack.ALPHA → (r.attachedDisk.boot ≠ none ↔ args.boot = true)) := by
  obtain ⟨d, k, -, -, hr⟩ := Run_ok_elim h
  subst hr
  cases track <;> cases hb : args.boot <;> simp [assemble, hb]

/-- C2 witness: the theorem applied to a concrete BETA run with `boot`
requested: the emitted request's `boot` field is still absent. -/
theorem C2_witness :
    (ReleaseTrack.BETA ≠ ReleaseTrack.ALPHA →
      (assemble ReleaseTrack.BETA argsW irefW ⟨"link"⟩ none).attachedDisk.boot = none) ∧
    (ReleaseTrack.BETA = ReleaseTrack.ALPHA →
      ((assemble ReleaseTrack.BETA argsW irefW ⟨"link"⟩ none).attachedDisk.boot ≠ none ↔
        argsW.boot = true)) :=
  C2_boot_only_alpha ReleaseTrack.BETA resolverW argsW irefW _ rfl

/-- C3: the disk reference is resolved with the caller's scope selector
(REGION iff the caller chose regional, else ZONE) when the track is BETA or
ALPHA, and with scope forced to ZONE when the track is GA, regardless of
caller input. -/
theorem C3_disk_scope_selection
    (track : ReleaseTrack) (resolver : Resolver) (args : Args)
    (instance_ref : InstanceRef) :
    ParseDiskRefFor track resolver args instance_ref =
      resolver args.disk instance_ref.project instance_ref.zone
        (if track = ReleaseTrack.BETA ∨ track = ReleaseTrack.ALPHA then
          (if args.disk_scope = some "regional" then ScopeEnum.REGION
           else ScopeEnum.ZONE)
         else ScopeEnum.ZONE) := by
  cases track <;>
    simp [ParseDiskRefFor, AttachDisk.ParseDiskRef, AttachDiskBeta.ParseDiskRef,
      AttachDiskAlpha.ParseDiskRef]

/-- C4: RSA-wrapped encryption keys are accepted iff the track is BETA or
ALPHA: an RSA-wrapped key under GA fails with `UnsupportedKeyType` and no
request is emitted, while the same input under BETA succeeds and populates
the request's `encryptionKey` field (when the key matches the resolved
disk). -/
theorem C4_rsa_key_gating
    (resolver : Resolver) (args : Args) (instance_ref : InstanceRef)
    (entries : List CsekKeyEntry) (d : DiskRef)
    (hkeys : args.csek_key_file = some entries)
    (hrsa : (entries.any fun e => e.keyType == KeyType.rsaEncrypted) = true)
    (hga : resolver args.disk instance_ref.project instance_ref.zone
      ScopeEnum.ZONE = some d) :
    Run ReleaseTrack.GA resolver args instance_ref =
      .error Error.UnsupportedKeyType ∧
    (∀ d2 k,
      resolver args.disk instance_ref.project instance_ref.zone
        (if args.disk_scope = some "regional" then ScopeEnum.REGION
         else ScopeEnum.ZONE) = some d2 →
      entries.find? (fun e => e.uri == d2.SelfLink) = some k →
      ∃ r, Run ReleaseTrack.BETA resolver args instance_ref = .ok r ∧
        r.attachedDisk.diskEncryptionKey = some k) := by
  constructor
  · refine Run_csek_error_intro hga ?_
    rw [hkeys]
    exact FromArgs_rsa_rejected hrsa
  · intro d2 k hd2 hfind
    refine ⟨assemble ReleaseTrack.BETA args instance_ref d2 (some entries),
      Run_ok_intro hd2 ?_, ?_⟩
    · rw [hkeys]
      exact FromArgs_allow_ok entries
    · rw [assemble_key]
      simp only [MaybeLookupKeyMessage, DiskRef.SelfLink]
      exact hfind

/-- C4 witness: with a concrete RSA-wrapped key matching the resolved disk,
the GA run fails with `UnsupportedKeyType` while the BETA run succeeds with
the request's encryption-key field populated. -/
theorem C4_witness :
    Run ReleaseTrack.GA resolverW
      ⟨none, "d1", "rw", none, false, false,
        some [⟨"link", KeyType.rsaEncrypted, "K"⟩]⟩ irefW =
      .error Error.UnsupportedKeyType ∧
    (∃ r, Run ReleaseTrack.BETA resolverW
        ⟨none, "d1", "rw", none, false, false,
          some [⟨"link", KeyType.rsaEncrypted, "K"⟩]⟩ irefW = .ok r ∧
      r.attachedDisk.diskEncryptionKey =
        some ⟨"link", KeyType.rsaEncrypted, "K"⟩) := by
  obtain ⟨h1, h2⟩ := C4_rsa_key_gating resolverW
    ⟨none, "d1", "rw", none, false, false,
      some [⟨"link", KeyType.rsaEncrypted, "K"⟩]⟩ irefW
    [⟨"link", KeyType.rsaEncrypted, "K"⟩] ⟨"link"⟩ rfl rfl rfl
  exact ⟨h1, h2 ⟨"link"⟩ ⟨"link", KeyType.rsaEncrypted, "K"⟩ rfl rfl⟩

/-- C5: whenever an invocation emits a request, the request's `mode` equals
READ_ONLY when the caller passed mode `ro`, and READ_WRITE when the caller
passed `rw` or omitted the option (fixed two-way mapping with default
ReadWrite). -/
theorem C5_mode_mapping
    (track : ReleaseTrack) (resolver : Resolver) (raw : RawArgs)
    (instance_ref : InstanceRef) (args : Args)
    (r : ComputeInstancesAttachDiskRequest)
    (hp : ParseArgsFor track raw = .ok args)
    (hr : Run track resolver args instance_ref = .ok r) :
    r.attachedDisk.mode =
      (if raw.mode = some "ro" then ModeValueValuesEnum.READ_ONLY
       else ModeValueValuesEnum.READ_WRITE) := by
  rw [ParseArgsFor_eq] at hp
  obtain ⟨-, hm2, hvalid, -, -⟩ := _Args_ok_elim hp
  obtain ⟨d, keys, -, -, hr2⟩ := Run_ok_elim hr
  subst hr2
  rw [assemble_mode]
  cases hraw : raw.mode with
  | none =>
    rw [hraw] at hm2
    simp only [Option.getD_none] at hm2
    rw [hm2]
    simp
  | some m =>
    rw [hraw] at hm2
    simp only [Option.getD_some] at hm2
    rw [hm2] at hvalid
    rw [hm2]
    rcases hvalid with h | h <;> subst h <;> simp

/-- C5 witness: a concrete GA invocation with `mode` unspecified builds a
request whose mode is READ_WRITE. -/
theorem C5_witness :
    (assemble ReleaseTrack.GA ⟨none, "d1", "rw", none, false, false, none⟩
        irefW ⟨"link"⟩ none).attachedDisk.mode =
      (if (⟨none, some "d1", none, none, false, false, none⟩ : RawArgs).mode = some "ro"
       then ModeValueValuesEnum.READ_ONLY
       else ModeValueValuesEnum.READ_WRITE) :=
  C5_mode_mapping ReleaseTrack.GA resolverW
    ⟨none, some "d1", none, none, false, false, none⟩ irefW
    ⟨none, "d1", "rw", none, false, false, none⟩ _ rfl rfl

/-- C6: the request's encryption-key field is populated only if the caller
supplied key material whose URI matches the resolved disk reference;
otherwise the field is absent (a populated key is always one of the caller's
entries, never a placeholder). -/
theorem C6_encryption_key_only_if_match
    (track : ReleaseTrack) (resolver : Resolver) (args : Args)
    (instance_ref : InstanceRef) (r : ComputeInstancesAttachDiskRequest)
    (k : CsekKeyEntry)
    (hr : Run track resolver args instance_ref = .ok r)
    (hk : r.attachedDisk.diskEncryptionKey = some k) :
    ∃ disk_ref entries,
      ParseDiskRefFor track resolver args instance_ref = some disk_ref ∧
      args.csek_key_file = some entries ∧
      k ∈ entries ∧ k.uri = disk_ref.SelfLink := by
  obtain ⟨d, keys, hd, hks, hr2⟩ := Run_ok_elim hr
  subst hr2
  rw [assemble_key] at hk
  have hkeyfile := FromArgs_ok_elim hks
  cases hc : args.csek_key_file with
  | none =>
    rw [hc] at hkeyfile
    rw [hkeyfile] at hk
    simp [MaybeLookupKeyMessage] at hk
  | some entries =>
    rw [hc] at hkeyfile
    rw [hkeyfile] at hk
    simp only [MaybeLookupKeyMessage] at hk
    have hmem := List.mem_of_find?_eq_some hk
    have hpred := List.find?_some hk
    exact ⟨d, entries, hd, rfl, hmem, by simpa using hpred⟩

/-- C6 witness: a concrete GA run whose AES key matches the resolved disk
populates the field with exactly that entry, drawn from the caller's
material. -/
theorem C6_witness :
    ∃ disk_ref entries,
      ParseDiskRefFor ReleaseTrack.GA resolverW
        ⟨none, "d1", "rw", none, false, false,
          some [⟨"link", KeyType.aes256, "K"⟩]⟩ irefW = some disk_ref ∧
      (⟨none, "d1", "rw", none, false, false,
        some [⟨"link", KeyType.aes256, "K"⟩]⟩ : Args).csek_key_file = some entries ∧
      (⟨"link", KeyType.aes256, "K"⟩ : CsekKeyEntry) ∈ entries ∧
      (⟨"link", KeyType.aes256, "K"⟩ : CsekKeyEntry).uri = disk_ref.SelfLink :=
  C6_encryption_key_only_if_match ReleaseTrack.GA resolverW
    ⟨none, "d1", "rw", none, false, false,
      some [⟨"link", KeyType.aes256, "K"⟩]⟩ irefW
    (assemble ReleaseTrack.GA
      ⟨none, "d1", "rw", none, false, false,
        some [⟨"link", KeyType.aes256, "K"⟩]⟩ irefW ⟨"link"⟩
      (some [⟨"link", KeyType.aes256, "K"⟩]))
    ⟨"link", KeyType.aes256, "K"⟩ rfl rfl

/-- C7: request construction is deterministic — for a fixed track and
resolver, structurally identical caller options and instance reference give
structurally identical results; the outcome depends on nothing else (no
hidden timestamp or nonce). -/
theorem C7_deterministic
    (track : ReleaseTrack) (resolver : Resolver) (args1 args2 : Args)
    (iref1 iref2 : InstanceRef)
    (ha : args1 = args2) (hi : iref1 = iref2) :
    Run track resolver args1 iref1 = Run track resolver args2 iref2 := by
  rw [ha, hi]

/-- C7 witness: the theorem applied at concrete equal inputs. -/
theorem C7_witness :
    Run ReleaseTrack.ALPHA resolverW argsW irefW =
      Run ReleaseTrack.ALPHA resolverW argsW irefW :=
  C7_deterministic ReleaseTrack.ALPHA resolverW argsW argsW irefW irefW rfl rfl

/-- C8: the only error outcomes of request construction are
MissingRequiredOption, InvalidEnumValue, ResourceResolutionError and
UnsupportedKeyType, and every error is terminal: no request (not even a
partial one) is handed to the transport layer. -/
theorem C8_error_taxonomy
    (track : ReleaseTrack) (resolver : Resolver) (raw : RawArgs)
    (instance_ref : InstanceRef) (e : Error)
    (h : RunCommand track resolver raw instance_ref = .error e) :
    (e = Error.MissingRequiredOption ∨ e = Error.InvalidEnumValue ∨
     e = Error.ResourceResolutionError ∨ e = Error.UnsupportedKeyType) ∧
    requestsSent track resolver raw instance_ref = [] := by
  refine ⟨?_, ?_⟩
  · cases e
    · exact Or.inl rfl
    · exact Or.inr (Or.inl rfl)
    · exact Or.inr (Or.inr (Or.inl rfl))
    · exact Or.inr (Or.inr (Or.inr rfl))
  · unfold requestsSent
    rw [h]

/-- C8 witness: a concrete invocation without a disk identifier errors and
hands nothing to the transport layer. -/
theorem C8_witness :
    (Error.MissingRequiredOption = Error.MissingRequiredOption ∨
     Error.MissingRequiredOption = Error.InvalidEnumValue ∨
     Error.MissingRequiredOption = Error.ResourceResolutionError ∨
     Error.MissingRequiredOption = Error.UnsupportedKeyType) ∧
    requestsSent ReleaseTrack.GA resolverW
      ⟨none, none, none, none, false, false, none⟩ irefW = [] :=
  C8_error_taxonomy ReleaseTrack.GA resolverW
    ⟨none, none, none, none, false, false, none⟩ irefW
    Error.MissingRequiredOption rfl

/-- C9: the option collector rejects an invocation without a disk identifier
with MissingRequiredOption, rejects a mode value other than the literals
`ro` and `rw` with InvalidEnumValue, and applies the ReadWrite (`rw`)
default when mode is unspecified. -/
theorem C9_collector_validation
    (s1 s2 s3 : Bool) (raw : RawArgs) :
    (raw.disk = none → _Args s1 s2 s3 raw = .error Error.MissingRequiredOption) ∧
    (∀ m, raw.mode = some m → m ≠ "ro" → m ≠ "rw" →
      raw.disk ≠ none → _Args s1 s2 s3 raw = .error Error.InvalidEnumValue) ∧
    (raw.disk ≠ none → raw.mode = none →
      ∃ args, _Args s1 s2 s3 raw = .ok args ∧ args.mode = "rw") := by
  refine ⟨?_, ?_, ?_⟩
  · intro hd
    unfold _Args
    rw [hd]
  · intro m hm hro hrw hd
    cases hdd : raw.disk with
    | none => exact absurd hdd hd
    | some d =>
      unfold _Args
      simp [hdd, hm, hro, hrw]
  · intro hd hm
    cases hdd : raw.disk with
    | none => exact absurd hdd hd
    | some d =>
      refine ⟨⟨raw.device_name, d, "rw", if s1 then raw.disk_scope else none,
        if s2 then raw.force_attach else false, if s3 then raw.boot else false,
        raw.csek_key_file⟩, ?_, rfl⟩
      unfold _Args
      simp [hdd, hm]

/-- C9 witness: concrete rejections — no disk gives MissingRequiredOption
and a mode of `rx` gives InvalidEnumValue — and a concrete unspecified mode
defaults to `rw`. -/
theorem C9_witness :
    _Args false false false ⟨none, none, none, none, false, false, none⟩ =
      .error Error.MissingRequiredOption ∧
    _Args false false false ⟨none, some "d1", some "rx", none, false, false, none⟩ =
      .error Error.InvalidEnumValue ∧
    (∃ args,
      _Args false false false ⟨none, some "d1", none, none, false, false, none⟩ =
        .ok args ∧ args.mode = "rw") := by
  refine ⟨?_, ?_, ?_⟩
  · exact (C9_collector_validation false false false _).1 rfl
  · exact (C9_collector_validation false false false
      ⟨none, some "d1", some "rx", none, false, false, none⟩).2.1 "rx" rfl
      (by decide) (by decide) (by simp)
  · exact (C9_collector_validation false false false
      ⟨none, some "d1", none, none, false, false, none⟩).2.2 (by simp) rfl

/-- C10: under BETA and ALPHA the emitted request's `forceAttach` is always
populated with the caller's flag value, and in particular is `some false`
(not omitted) when the caller did not pass the flag, whose argparse default
is False. -/
theorem C10_forceAttach_default_false
    (track : ReleaseTrack) (resolver : Resolver) (raw : RawArgs)
    (instance_ref : InstanceRef) (args : Args)
    (r : ComputeInstancesAttachDiskRequest)
    (htrack : track = ReleaseTrack.BETA ∨ track = ReleaseTrack.ALPHA)
    (hp : ParseArgsFor track raw = .ok args)
    (hr : Run track resolver args instance_ref = .ok r) :
    r.forceAttach = some args.force_attach ∧
    (raw.force_attach = false → r.forceAttach = some false) := by
  obtain ⟨d, keys, -, -, hr2⟩ := Run_ok_elim hr
  subst hr2
  rw [ParseArgsFor_eq] at hp
  obtain ⟨-, -, -, hfa, -⟩ := _Args_ok_elim hp
  constructor
  · rw [assemble_forceAttach]
    rcases htrack with h | h <;> subst h <;> simp
  · intro hraw
    rw [assemble_forceAttach]
    rcases htrack with h | h <;> subst h <;> simp at hfa <;> simp [hfa, hraw]

/-- C10 witness: a concrete BETA invocation without the force-attach flag
emits a request whose `forceAttach` is `some false`. -/
theorem C10_witness :
    (assemble ReleaseTrack.BETA ⟨none, "d1", "rw", none, false, false, none⟩
        irefW ⟨"link"⟩ none).forceAttach =
      some (⟨none, "d1", "rw", none, false, false, none⟩ : Args).force_attach ∧
    ((⟨none, some "d1", none, none, false, false, none⟩ : RawArgs).force_attach = false →
      (assemble ReleaseTrack.BETA ⟨none, "d1", "rw", none, false, false, none⟩
          irefW ⟨"link"⟩ none).forceAttach = some false) :=
  C10_forceAttach_default_false ReleaseTrack.BETA resolverW
    ⟨none, some "d1", none, none, false, false, none⟩ irefW
    ⟨none, "d1", "rw", none, false, false, none⟩ _ (Or.inl rfl) rfl rfl

end AttachDiskCmd
